import Mathlib

/-!
Verification development for the iphone-image-backup repository.

The repository archives media files from a device into a local,
date-organized directory tree with content-addressed deduplication.
This file shallowly embeds the core of the code:

  * src/iphone_backup/fingerprint.py   (FingerprintManager, FileFingerprint)
  * src/iphone_backup/date_extractor.py (DateExtractor)
  * src/iphone_backup/config.py        (BackupConfig.should_exclude_file)
  * src/iphone_backup/scanner.py       (PhotoScanner)
  * src/iphone_backup/backup.py        (iPhonePhotoBackup)

External collaborators (the pymobiledevice3 transport, PIL EXIF decoding,
the local filesystem and the clock) are modelled as explicit parameters of
an environment record; machine behavior of the Python standard library
(hashlib.sha256, fnmatch, pathlib name and suffix, strftime) is embedded
concretely below.
-/

namespace IPhoneBackup

/-! ## Bytes and 32-bit words -/

/-- File contents as a list of byte values.  Python bytes objects are
sequences of integers in [0, 256); the embedding never needs the upper
bound, hashing masks every word to 32 bits explicitly. -/
abbrev Bytes := List Nat

/-- Truncation to a 32-bit word, the wrap-around hashlib arithmetic uses. -/
def w32 (x : Nat) : Nat := x % 4294967296

/-- Right rotation of a 32-bit word by n bits. -/
def rotr (n x : Nat) : Nat := ((x >>> n) ||| (x <<< (32 - n))) &&& 0xffffffff

/-! ## SHA-256 (FIPS 180-4), the model of hashlib.sha256(...).hexdigest()

fingerprint.py line 33 calls hashlib.sha256(file_data).hexdigest(); hashlib
is external, so the algorithm it implements is embedded here in full. -/

def shaCh (x y z : Nat) : Nat := (x &&& y) ^^^ ((x ^^^ 0xffffffff) &&& z)

def shaMaj (x y z : Nat) : Nat := (x &&& y) ^^^ (x &&& z) ^^^ (y &&& z)

def bigSigma0 (x : Nat) : Nat := rotr 2 x ^^^ rotr 13 x ^^^ rotr 22 x

def bigSigma1 (x : Nat) : Nat := rotr 6 x ^^^ rotr 11 x ^^^ rotr 25 x

def smallSigma0 (x : Nat) : Nat := rotr 7 x ^^^ rotr 18 x ^^^ (x >>> 3)

def smallSigma1 (x : Nat) : Nat := rotr 17 x ^^^ rotr 19 x ^^^ (x >>> 10)

/-- The 64 SHA-256 round constants, in eight rows of eight. -/
def shaK : List Nat :=
  [0x428a2f98, 0x71374491, 0xb5c0fbcf, 0xe9b5dba5, 0x3956c25b, 0x59f111f1, 0x923f82a4, 0xab1c5ed5] ++
  [0xd807aa98, 0x12835b01, 0x243185be, 0x550c7dc3, 0x72be5d74, 0x80deb1fe, 0x9bdc06a7, 0xc19bf174] ++
  [0xe49b69c1, 0xefbe4786, 0x0fc19dc6, 0x240ca1cc, 0x2de92c6f, 0x4a7484aa, 0x5cb0a9dc, 0x76f988da] ++
  [0x983e5152, 0xa831c66d, 0xb00327c8, 0xbf597fc7, 0xc6e00bf3, 0xd5a79147, 0x06ca6351, 0x14292967] ++
  [0x27b70a85, 0x2e1b2138, 0x4d2c6dfc, 0x53380d13, 0x650a7354, 0x766a0abb, 0x81c2c92e, 0x92722c85] ++
  [0xa2bfe8a1, 0xa81a664b, 0xc24b8b70, 0xc76c51a3, 0xd192e819, 0xd6990624, 0xf40e3585, 0x106aa070] ++
  [0x19a4c116, 0x1e376c08, 0x2748774c, 0x34b0bcb5, 0x391c0cb3, 0x4ed8aa4a, 0x5b9cca4f, 0x682e6ff3] ++
  [0x748f82ee, 0x78a5636f, 0x84c87814, 0x8cc70208, 0x90befffa, 0xa4506ceb, 0xbef9a3f7, 0xc67178f2]

/-- Big-endian rendering of a number on n bytes (most significant first). -/
def toBytesBE : Nat → Nat → List Nat
  | 0, _ => []
  | n + 1, x => toBytesBE n (x >>> 8) ++ [x &&& 0xff]

/-- SHA-256 message padding: append 0x80, zero bytes up to 56 mod 64, then
the bit length on 8 bytes big-endian. -/
def padMessage (msg : Bytes) : Bytes :=
  let l := msg.length
  msg ++ [0x80] ++ List.replicate ((119 - l % 64) % 64) 0 ++ toBytesBE 8 (l * 8)

/-- Group bytes into 32-bit big-endian words (the padded length is a
multiple of 4, a trailing fragment shorter than 4 bytes is dropped). -/
def bytesToWords : List Nat → List Nat
  | b0 :: b1 :: b2 :: b3 :: rest =>
      ((((b0 <<< 8) ||| b1) <<< 8 ||| b2) <<< 8 ||| b3) :: bytesToWords rest
  | _ => []

/-- Split a word list into blocks of 16 words (the padded message always
has a multiple of 16 words; a shorter final fragment is kept as one block). -/
def chunk16 : List Nat → List (List Nat)
  | a1 :: a2 :: a3 :: a4 :: a5 :: a6 :: a7 :: a8 ::
    a9 :: a10 :: a11 :: a12 :: a13 :: a14 :: a15 :: a16 :: rest =>
      [a1, a2, a3, a4, a5, a6, a7, a8, a9, a10, a11, a12, a13, a14, a15, a16] :: chunk16 rest
  | [] => []
  | ws => [ws]

/-- One extension step of the message schedule: append word number t from
words t-2, t-7, t-15 and t-16. -/
def scheduleStep (ws : List Nat) : List Nat :=
  let n := ws.length
  ws ++ [w32 (smallSigma1 (ws.getD (n - 2) 0) + ws.getD (n - 7) 0 +
              smallSigma0 (ws.getD (n - 15) 0) + ws.getD (n - 16) 0)]

/-- The 64-word message schedule of one block. -/
def schedule (block : List Nat) : List Nat :=
  (List.range 48).foldl (fun acc _ => scheduleStep acc) block

/-- The eight 32-bit working variables of the compression function. -/
structure Hash8 where
  a : Nat
  b : Nat
  c : Nat
  d : Nat
  e : Nat
  f : Nat
  g : Nat
  h : Nat
deriving DecidableEq, Repr

/-- The SHA-256 initial hash value. -/
def shaH0 : Hash8 :=
  ⟨0x6a09e667, 0xbb67ae85, 0x3c6ef372, 0xa54ff53a,
   0x510e527f, 0x9b05688c, 0x1f83d9ab, 0x5be0cd19⟩

/-- One round of the SHA-256 compression function. -/
def compressRound (st : Hash8) (kw : Nat × Nat) : Hash8 :=
  let t1 := w32 (st.h + bigSigma1 st.e + shaCh st.e st.f st.g + kw.1 + kw.2)
  let t2 := w32 (bigSigma0 st.a + shaMaj st.a st.b st.c)
  ⟨w32 (t1 + t2), st.a, st.b, st.c, w32 (st.d + t1), st.e, st.f, st.g⟩

/-- Process one 16-word block against the running hash value. -/
def processBlock (hs : Hash8) (block : List Nat) : Hash8 :=
  let st := (shaK.zip (schedule block)).foldl compressRound hs
  ⟨w32 (hs.a + st.a), w32 (hs.b + st.b), w32 (hs.c + st.c), w32 (hs.d + st.d),
   w32 (hs.e + st.e), w32 (hs.f + st.f), w32 (hs.g + st.g), w32 (hs.h + st.h)⟩

/-- SHA-256 of a byte sequence, as eight 32-bit words. -/
def sha256words (msg : Bytes) : Hash8 :=
  (chunk16 (bytesToWords (padMessage msg))).foldl processBlock shaH0

/-- The sixteen lowercase hex digit characters. -/
def hexDigits : List Char := "0123456789abcdef".toList

/-- Lowercase hex rendering of one 32-bit word on exactly 8 characters. -/
def toHex8 (w : Nat) : List Char :=
  (List.range 8).map (fun i => hexDigits.getD ((w >>> (28 - 4 * i)) &&& 15) '0')

/-- SHA-256 hex digest of a byte sequence: 64 lowercase hex characters,
the model of hashlib.sha256(data).hexdigest(). -/
def sha256hex (msg : Bytes) : String :=
  (toHex8 (sha256words msg).a ++ toHex8 (sha256words msg).b ++
   toHex8 (sha256words msg).c ++ toHex8 (sha256words msg).d ++
   toHex8 (sha256words msg).e ++ toHex8 (sha256words msg).f ++
   toHex8 (sha256words msg).g ++ toHex8 (sha256words msg).h).asString

/-! ## Path and string helpers (the pathlib and str operations the code uses) -/

/-- Lowercasing of a string, the model of str.lower() on the ASCII
extensions and filenames the code handles. -/
def lowerStr (s : String) : String := (s.toList.map Char.toLower).asString

/-- Split a character list on a separator character, the model of
str.split: empty segments between consecutive separators are kept. -/
def splitOnChar (c : Char) (l : List Char) : List (List Char) :=
  l.foldr (fun x acc =>
    match acc with
    | seg :: rest => if x == c then [] :: seg :: rest else (x :: seg) :: rest
    | [] => [[x]]) [[]]

/-- The final component of a POSIX path, the model of pathlib Path(p).name:
the last nonempty segment between slashes (empty for a bare root; the
device paths the code handles contain no dot or dotdot components). -/
def pathName (s : String) : String :=
  ((splitOnChar '/' s.toList).foldl
    (fun acc seg => if seg.isEmpty then acc else seg) []).asString

/-- Index of the last occurrence of a character, the model of str.rfind:
the index, or -1 when the character does not occur. -/
def strRfind (c : Char) (l : List Char) : Int :=
  match (l.reverse).findIdx? (· == c) with
  | some j => (l.length : Int) - 1 - (j : Int)
  | none => -1

/-- The extension of a path's final component, the model of pathlib
Path(p).suffix: from the last dot, provided that dot is neither the first
nor the last character of the name. -/
def pathSuffix (s : String) : String :=
  let name := (pathName s).toList
  let i := strRfind '.' name
  if 0 < i ∧ i < (name.length : Int) - 1 then (name.drop i.toNat).asString else ""

/-! ## Shell-style glob matching (the model of fnmatch.fnmatch)

config.py line 112 matches exclusion patterns with fnmatch.fnmatch, whose
POSIX behavior is: os.path.normcase is the identity, a star matches any
character run including slashes, a question mark one character, and a
bracket expression one character from a set with optional leading negation
and ranges; an unterminated bracket is a literal character. -/

/-- Leading negation marker of a bracket expression. -/
def clsNeg : List Char → Bool × List Char
  | '!' :: rest => (true, rest)
  | l => (false, l)

/-- Scan a bracket expression body up to the closing bracket; none when the
expression is unterminated. -/
def clsScan (acc : List Char) : List Char → Option (List Char × List Char)
  | [] => none
  | ']' :: rest => some (acc, rest)
  | c :: rest => clsScan (acc ++ [c]) rest

/-- Parse a bracket expression after its opening bracket: negation flag,
body and remaining pattern; a closing bracket first in the body is literal. -/
def clsParse (l : List Char) : Option (Bool × List Char × List Char) :=
  let p := clsNeg l
  match p.2 with
  | ']' :: rest =>
      match clsScan [']'] rest with
      | some br => some (p.1, br.1, br.2)
      | none => none
  | l1 =>
      match clsScan [] l1 with
      | some br => some (p.1, br.1, br.2)
      | none => none

/-- Membership of a character in a bracket expression body, with ranges. -/
def matchCls (c : Char) : List Char → Bool
  | a :: '-' :: b :: rest => (decide (a ≤ c) && decide (c ≤ b)) || matchCls c rest
  | a :: rest => (a == c) || matchCls c rest
  | [] => false

/-- Shell-style glob matching of a pattern against a string, both as
character lists. -/
def globMatch (ps cs : List Char) : Bool :=
  match ps, cs with
  | [], [] => true
  | [], _ :: _ => false
  | '*' :: ps1, cs =>
      globMatch ps1 cs ||
        (match cs with
         | [] => false
         | _ :: cs1 => globMatch ('*' :: ps1) cs1)
  | '?' :: _, [] => false
  | '?' :: ps1, _ :: cs1 => globMatch ps1 cs1
  | '[' :: ps1, cs =>
      match clsParse ps1 with
      | some br =>
          (match cs with
           | [] => false
           | c :: cs1 =>
               (if br.1 then !matchCls c br.2.1 else matchCls c br.2.1) &&
                 globMatch br.2.2 cs1)
      | none =>
          (match cs with
           | [] => false
           | c :: cs1 => ('[' == c) && globMatch ps1 cs1)
  | _ :: _, [] => false
  | p :: ps1, c :: cs1 => (p == c) && globMatch ps1 cs1
termination_by (cs.length, ps.length)

/-- The model of fnmatch.fnmatch(name, pattern) on POSIX. -/
def fnmatch_model (name pat : String) : Bool := globMatch pat.toList name.toList

/-! ## Data model -/

/-- A calendar timestamp, the model of datetime.datetime values.  Only the
fields the code formats or compares are carried. -/
structure DateTime where
  year : Nat
  month : Nat
  day : Nat
  hour : Nat
  minute : Nat
  second : Nat
deriving DecidableEq, Repr

/-- The stat result fields date_extractor.py reads.  A field is none when
the stat object lacks the attribute (the hasattr checks); timestamps are
integers, 0 standing for an invalid epoch-zero time. -/
structure StatInfo where
  st_mtime : Option Int
  st_ctime : Option Int
deriving DecidableEq, Repr

/-- The resolved configuration, the model of config.py BackupConfig after
loading: the values its getters return.  Dictionary traversal and YAML
parsing are configuration-loading glue outside the core. -/
structure BackupConfig where
  photo_extensions : List String
  video_extensions : List String
  exclude_files : List String
  exclude_patterns : List String
deriving DecidableEq, Repr

/-- config.py should_exclude_file: exact match against the exclusion list,
then fnmatch against each exclusion pattern, on the full path string. -/
def should_exclude_file (cfg : BackupConfig) (file_path : String) : Bool :=
  cfg.exclude_files.contains file_path ||
    cfg.exclude_patterns.any (fun pattern => fnmatch_model file_path pattern)

/-- fingerprint.py FileFingerprint: destination path, content hash, size,
and the modification time read from the local file at construction (none
when the path does not exist). -/
structure FileFingerprint where
  file_path : String
  content_hash : String
  size : Nat
  modified_time : Option DateTime
deriving DecidableEq, Repr

/-- fingerprint.py FingerprintManager state: the backup directory, the
content-hash keyed cache and the built flag. -/
structure FingerprintManager where
  backup_directory : String
  _fingerprint_cache : List (String × FileFingerprint)
  _cache_built : Bool
deriving DecidableEq, Repr

/-- Insertion into an association list with Python dict semantics: an
existing key keeps its position and gets the new value, a new key is
appended. -/
def dictInsert {α : Type} (m : List (String × α)) (k : String) (v : α) :
    List (String × α) :=
  match m with
  | [] => [(k, v)]
  | kv :: rest => if kv.1 == k then (k, v) :: rest else kv :: dictInsert rest k v

/-- fingerprint.py calculate_content_hash: the SHA-256 hex digest of the
content.  The except branch returning the empty string is unreachable in
the model because hashlib.sha256 on an in-memory bytes object cannot fail. -/
def calculate_content_hash (file_data : Bytes) : String := sha256hex file_data

/-- The hardcoded media-extension allowlist of fingerprint.py line 48. -/
def fingerprint_photo_extensions : List String :=
  [".jpg", ".jpeg", ".png", ".heic", ".gif", ".tiff", ".bmp",
   ".mov", ".mp4", ".m4v", ".dng", ".raw", ".cr2", ".nef"]

/-- fingerprint.py _build_fingerprint_cache.  The destination tree listing
is passed explicitly: fs holds every file the rglob walk yields together
with its readable content (a file whose open or read raises is skipped by
the except branch, modelled by its absence from fs); dirExists models
backup_directory.exists() and mtimeOf the FileFingerprint constructor's
stat of the archived file. -/
def _build_fingerprint_cache (dirExists : Bool) (mtimeOf : String → Option DateTime)
    (fs : List (String × Bytes)) (st : FingerprintManager) : FingerprintManager :=
  if st._cache_built then st
  else if !dirExists then
    { st with _fingerprint_cache := [], _cache_built := true }
  else
    let cache := fs.foldl (fun acc pf =>
      if fingerprint_photo_extensions.contains (lowerStr (pathSuffix pf.1)) then
        let content_hash := calculate_content_hash pf.2
        if content_hash ≠ "" then
          dictInsert acc content_hash
            ⟨pf.1, content_hash, pf.2.length, mtimeOf pf.1⟩
        else acc
      else acc) []
    { st with _fingerprint_cache := cache, _cache_built := true }

/-- fingerprint.py is_duplicate: build the cache if needed, hash the bytes
and look the hash up.  Returns the result together with the updated
manager state (the Python method mutates self). -/
def is_duplicate (dirExists : Bool) (mtimeOf : String → Option DateTime)
    (fs : List (String × Bytes)) (st : FingerprintManager) (file_data : Bytes) :
    (Bool × Option FileFingerprint) × FingerprintManager :=
  let st1 := _build_fingerprint_cache dirExists mtimeOf fs st
  let content_hash := calculate_content_hash file_data
  match st1._fingerprint_cache.lookup content_hash with
  | some fp => ((true, some fp), st1)
  | none => ((false, none), st1)

/-- The dictionary fingerprint.py get_duplicate_info returns; absent keys
are modelled as none. -/
structure DuplicateInfo where
  is_duplicate : Bool
  backup_path : Option String
  size : Option Nat
  modified_time : Option (Option DateTime)
deriving DecidableEq, Repr

/-- fingerprint.py get_duplicate_info. -/
def get_duplicate_info (dirExists : Bool) (mtimeOf : String → Option DateTime)
    (fs : List (String × Bytes)) (st : FingerprintManager) (file_data : Bytes) :
    DuplicateInfo × FingerprintManager :=
  let r := is_duplicate dirExists mtimeOf fs st file_data
  match r.1 with
  | (true, some fp) =>
      (⟨true, some fp.file_path, some fp.size, some fp.modified_time⟩, r.2)
  | _ => (⟨false, none, none, none⟩, r.2)

/-- fingerprint.py add_file_to_cache: hash the bytes and insert a new
fingerprint unless the hash is the empty string. -/
def add_file_to_cache (mtimeOf : String → Option DateTime)
    (st : FingerprintManager) (file_path : String) (file_data : Bytes) :
    FingerprintManager :=
  let content_hash := calculate_content_hash file_data
  if content_hash ≠ "" then
    { st with _fingerprint_cache :=
        (dictInsert st._fingerprint_cache content_hash
          ⟨file_path, content_hash, file_data.length, mtimeOf file_path⟩) }
  else st

/-- fingerprint.py clear_cache. -/
def clear_cache (st : FingerprintManager) : FingerprintManager :=
  { st with _fingerprint_cache := [], _cache_built := false }

/-- fingerprint.py get_stats: build the cache if needed, then aggregate
file count and total size. -/
def get_stats (dirExists : Bool) (mtimeOf : String → Option DateTime)
    (fs : List (String × Bytes)) (st : FingerprintManager) :
    (Nat × Nat × String) × FingerprintManager :=
  let st1 := _build_fingerprint_cache dirExists mtimeOf fs st
  ((st1._fingerprint_cache.length,
    (st1._fingerprint_cache.map (fun kv => kv.2.size)).sum,
    st1.backup_directory), st1)

/-! ## External collaborators

device.py, the PIL EXIF decoder, the local filesystem stat and the clock
are outside the core; the orchestrator and the date extractor consume them
through this environment record. -/

/-- The external collaborators consumed by the core.  Fallible device
calls return Except, the raised transport error carried as a string. -/
structure Env where
  config : BackupConfig
  connectOk : Bool
  exists_ : String → Bool
  walk : String → List (String × List String × List String)
  get_file_contents : String → Except String Bytes
  stat : String → Except String StatInfo
  exif_date : Bytes → Option DateTime
  fromts : Int → DateTime
  now : DateTime
  writeOk : String → Bool
  localMtime : String → Option DateTime
  destDirExists : Bool

/-! ## Date extraction (date_extractor.py) -/

/-- date_extractor.py _extract_exif_date: fetch the bytes from the device
and decode an EXIF timestamp; every exception (a transport error included)
is caught and yields none.  The PIL image decode, tag scan and strptime
parse are summarised by the external exif_date collaborator on the fetched
bytes. -/
def _extract_exif_date (env : Env) (file_path : String) : Option DateTime :=
  match env.get_file_contents file_path with
  | .error _ => none
  | .ok file_data => env.exif_date file_data

/-- date_extractor.py _get_filesystem_date: stat the remote file; a
positive st_mtime wins, else a positive st_ctime, else none; a raised stat
error is caught and yields none. -/
def _get_filesystem_date (env : Env) (file_path : String) : Option DateTime :=
  match env.stat file_path with
  | .error _ => none
  | .ok s =>
    match s.st_mtime with
    | some m =>
        if 0 < m then some (env.fromts m)
        else
          match s.st_ctime with
          | some c => if 0 < c then some (env.fromts c) else none
          | none => none
    | none =>
        match s.st_ctime with
        | some c => if 0 < c then some (env.fromts c) else none
        | none => none

/-- date_extractor.py get_file_date: EXIF date, else filesystem date, else
the current time.  Total: no branch can raise. -/
def get_file_date (env : Env) (file_path : String) : DateTime :=
  match _extract_exif_date env file_path with
  | some d => d
  | none =>
    match _get_filesystem_date env file_path with
    | some d => d
    | none => env.now

/-! ## Date formatting and destination paths (backup.py) -/

/-- Two-digit zero padding, the model of strftime conversions such as
percent-m and percent-d on the 1..31 values real dates carry. -/
def pad2 (n : Nat) : String := if n < 10 then "0" ++ toString n else toString n

/-- The model of the strftime year conversion: glibc renders the year as a
plain decimal number without padding (years below 1000 are a
platform-dependent corner outside any reachable timestamp here). -/
def yearStr (y : Nat) : String := toString y

/-- The strftime format string backup.py line 100 and 160 uses, applied to
a date: year, slash, ISO date. -/
def strftime_Y_Ymd (d : DateTime) : String :=
  yearStr d.year ++ "/" ++ yearStr d.year ++ "-" ++ pad2 d.month ++ "-" ++ pad2 d.day

/-- backup.py organize_file_path: backup root, then the formatted date
directories, then the source basename.  Path division is POSIX slash
concatenation. -/
def organize_file_path (backup_dir : String) (file_path : String)
    (file_date : DateTime) : String :=
  backup_dir ++ "/" ++ strftime_Y_Ymd file_date ++ "/" ++ pathName file_path

/-! ## Scanner (scanner.py) -/

/-- scanner.py _should_skip_directory: the directory path contains one of
the three non-asset subtree markers. -/
def hasSubseq (needle hay : List Char) : Bool :=
  match hay with
  | [] => needle.isEmpty
  | _ :: rest => needle.isPrefixOf hay || hasSubseq needle rest

/-- scanner.py _should_skip_directory. -/
def _should_skip_directory (directory_path : String) : Bool :=
  ["/Thumbnails/", "/Cache/", "/Metadata/"].any
    (fun skip_pattern => hasSubseq skip_pattern.toList directory_path.toList)

/-- The scanner's extension set: the configured photo and video extension
lists, lowercased (scanner.py line 22). -/
def scanner_extensions (cfg : BackupConfig) : List String :=
  (cfg.photo_extensions ++ cfg.video_extensions).map lowerStr

/-- The per-file body of the scanner's inner loop (scanner.py lines 53 to
63): keep the file when its lowercased suffix is in the extension set and
the exclusion policy does not exclude the full path. -/
def scan_file_filter (cfg : BackupConfig) (rootDir file : String) : Option String :=
  if (scanner_extensions cfg).contains (lowerStr (pathSuffix file)) then
    let file_path := rootDir ++ "/" ++ file
    if should_exclude_file cfg file_path then none else some file_path
  else none

/-- The per-directory body of the scanner's walk loop: skip thumbnail,
cache and metadata directories entirely, else append the kept files. -/
def scan_dir_step (cfg : BackupConfig) (acc : List String)
    (rdf : String × List String × List String) : List String :=
  if _should_skip_directory rdf.1 then acc
  else acc ++ rdf.2.2.filterMap (scan_file_filter cfg rdf.1)

/-- scanner.py scan_for_photos: walk /DCIM when it exists, skip thumbnail
and cache directories, keep files whose lowercased suffix is in the
extension set and which the exclusion policy does not exclude. -/
def scan_for_photos (env : Env) : List String :=
  if env.exists_ "/DCIM" then
    (env.walk "/DCIM").foldl (scan_dir_step env.config) []
  else []

/-! ## Orchestrator (backup.py) -/

/-- One backup run's counters (backup.py self.stats). -/
structure Stats where
  total_photos : Nat
  backed_up : Nat
  skipped : Nat
  duplicates : Nat
  errors : Nat
deriving DecidableEq, Repr

/-- The filesystem operations the orchestrator performs, recorded as an
observable trace.  A rename constructor is part of the modelled filesystem
API surface; whether the code ever emits one is a proved property. -/
inductive Event where
  | readFile : String → Event
  | mkdir : String → Event
  | writeFile : String → Event
  | rename : String → String → Event
deriving DecidableEq, Repr

/-- The orchestrator's mutable state: destination root, the destination
tree (path to content), the fingerprint manager, the counters and the
event trace. -/
structure OrchState where
  backup_dir : String
  fs : List (String × Bytes)
  fm : FingerprintManager
  stats : Stats
  events : List Event
deriving DecidableEq, Repr

/-- Counter bumps, the model of the four increment statements of
backup.py backup_photo. -/
def bumpBackedUp (s : Stats) : Stats := { s with backed_up := s.backed_up + 1 }

def bumpSkipped (s : Stats) : Stats := { s with skipped := s.skipped + 1 }

def bumpDuplicates (s : Stats) : Stats := { s with duplicates := s.duplicates + 1 }

def bumpErrors (s : Stats) : Stats := { s with errors := s.errors + 1 }

/-- backup.py backup_photo, one candidate end to end.  The try block is
modelled by the explicit error branches: a failed device read or a failed
destination write lands in the except branch, which bumps errors and
returns False.  The duplicate check reads the current destination tree
for the lazy cache build; events record device reads, directory creation
and the write. -/
def backup_photo (env : Env) (st : OrchState) (photo_path : String) :
    Bool × OrchState :=
  if should_exclude_file env.config photo_path then
    (true, { st with stats := bumpSkipped st.stats })
  else
    match env.get_file_contents photo_path with
    | .error _ =>
        (false, { st with stats := bumpErrors st.stats,
                          events := st.events ++ [Event.readFile photo_path] })
    | .ok file_data =>
      let st1 : OrchState :=
        { st with events := st.events ++ [Event.readFile photo_path] }
      let dup := get_duplicate_info env.destDirExists env.localMtime st1.fs st1.fm file_data
      let st2 : OrchState := { st1 with fm := dup.2 }
      if dup.1.is_duplicate then
        (true, { st2 with stats := bumpDuplicates st2.stats })
      else
        let file_date := get_file_date env photo_path
        let st3 : OrchState :=
          { st2 with events := st2.events ++ [Event.readFile photo_path] }
        let filename := pathName photo_path
        let year_date := strftime_Y_Ymd file_date
        let target_dir := st3.backup_dir ++ "/" ++ year_date
        let st4 : OrchState :=
          { st3 with events := st3.events ++ [Event.mkdir target_dir] }
        let original_path := target_dir ++ "/" ++ filename
        if (st4.fs.lookup original_path).isSome then
          (true, { st4 with stats := bumpSkipped st4.stats })
        else
          if env.writeOk original_path then
            let st5 : OrchState :=
              { st4 with fs := dictInsert st4.fs original_path file_data,
                         events := st4.events ++ [Event.writeFile original_path] }
            let st6 : OrchState :=
              { st5 with fm := add_file_to_cache env.localMtime st5.fm original_path file_data }
            (true, { st6 with stats := bumpBackedUp st6.stats })
          else
            (false, { st4 with stats := bumpErrors st4.stats })

/-- backup.py backup_all_photos: connect, scan, set total_photos, back up
every candidate in scan order, return True.  Connection failure returns
False without touching the state. -/
def backup_all_photos (env : Env) (st : OrchState) : Bool × OrchState :=
  if !env.connectOk then (false, st)
  else
    let photo_paths := scan_for_photos env
    if photo_paths.isEmpty then (true, st)
    else
      let st1 : OrchState :=
        { st with stats := { st.stats with total_photos := photo_paths.length } }
      (true, photo_paths.foldl (fun s p => (backup_photo env s p).2) st1)

/-- The orchestrator state right after iPhonePhotoBackup.__init__ against
an empty destination: zero counters, empty tree, an unbuilt fingerprint
manager. -/
def initOrchState (backup_dir : String) : OrchState :=
  { backup_dir := backup_dir,
    fs := [],
    fm := { backup_directory := backup_dir, _fingerprint_cache := [], _cache_built := false },
    stats := ⟨0, 0, 0, 0, 0⟩,
    events := [] }

/-- The sum of the four outcome counters of one run. -/
def statsSum (s : Stats) : Nat := s.backed_up + s.skipped + s.duplicates + s.errors

/-- The target directory backup_photo computes for a candidate: backup
root and formatted resolved date. -/
def dest_dir (env : Env) (st : OrchState) (p : String) : String :=
  st.backup_dir ++ "/" ++ strftime_Y_Ymd (get_file_date env p)

/-- The destination file path backup_photo computes for a candidate. -/
def dest_path (env : Env) (st : OrchState) (p : String) : String :=
  dest_dir env st p ++ "/" ++ pathName p

/-- Whether a trace event is a rename. -/
def isRenameEvent : Event → Bool
  | Event.rename _ _ => true
  | _ => false

/-! ## Spec-side reference definitions -/

/-- Modelled from the spec, section 4.3: the ordered fallback chain of the
CapturedDateResolver contract; embedded metadata timestamp first, else a
valid (positive) modification time, else a valid (positive) change time,
else the current wall-clock time. -/
def resolve_spec (metaTs : Option DateTime) (mtime ctime : Option Int)
    (fromts : Int → DateTime) (now : DateTime) : DateTime :=
  match metaTs with
  | some t => t
  | none =>
    match mtime with
    | some m =>
        if 0 < m then fromts m
        else
          match ctime with
          | some c => if 0 < c then fromts c else now
          | none => now
    | none =>
        match ctime with
        | some c => if 0 < c then fromts c else now
        | none => now

/-- Four-digit zero padding of a year, per the spec's zero-padded layout. -/
def pad4 (n : Nat) : String :=
  if n < 10 then "000" ++ toString n
  else if n < 100 then "00" ++ toString n
  else if n < 1000 then "0" ++ toString n
  else toString n

/-- Modelled from the spec, section 6: the destination filesystem layout
backupRoot slash YYYY slash YYYY-MM-DD slash originalBasename with
zero-padded date segments. -/
def spec_dest_path (backupRoot : String) (y m d : Nat) (basename : String) : String :=
  backupRoot ++ "/" ++ pad4 y ++ "/" ++ pad4 y ++ "-" ++ pad2 m ++ "-" ++ pad2 d ++
    "/" ++ basename

/-! ## Concrete instances used by the witnesses -/

/-- A small resolved configuration: the default extension allowlist with no
exclusions configured. -/
def cfgW : BackupConfig :=
  { photo_extensions := [".jpg", ".jpeg", ".png", ".heic"],
    video_extensions := [".mov", ".mp4"],
    exclude_files := [],
    exclude_patterns := [] }

/-- A concrete device environment: five candidate files under the camera
roll, one of which raises a transport error when read, the others carrying
distinct one-byte contents; no EXIF dates; valid stat times. -/
def envW : Env :=
  { config := cfgW,
    connectOk := true,
    exists_ := fun _ => true,
    walk := fun _ => [("/DCIM/100APPLE", [], ["a.jpg", "b.jpg", "c.jpg", "d.jpg", "e.jpg"])],
    get_file_contents := fun p =>
      if p = "/DCIM/100APPLE/c.jpg" then Except.error "transport error"
      else Except.ok [(p.toList.getD 15 'x').toNat],
    stat := fun _ => Except.ok ⟨some 1600000000, some 1600000000⟩,
    exif_date := fun _ => none,
    fromts := fun _ => ⟨2020, 9, 13, 12, 26, 40⟩,
    now := ⟨2026, 10, 12, 0, 0, 0⟩,
    writeOk := fun _ => true,
    localMtime := fun _ => none,
    destDirExists := true }

/-- A concrete device environment for single-candidate scenarios: every
read of a source path yields the same three bytes, the EXIF date is the
spec's example timestamp. -/
def envW1 : Env :=
  { config := cfgW,
    connectOk := true,
    exists_ := fun _ => true,
    walk := fun _ => [("/DCIM/100APPLE", [], ["IMG_001.jpg"])],
    get_file_contents := fun _ => Except.ok [1, 2, 3],
    stat := fun _ => Except.ok ⟨some 1600000000, some 1600000000⟩,
    exif_date := fun _ => some ⟨2023, 12, 25, 15, 30, 45⟩,
    fromts := fun _ => ⟨2020, 9, 13, 12, 26, 40⟩,
    now := ⟨2026, 10, 12, 0, 0, 0⟩,
    writeOk := fun _ => true,
    localMtime := fun _ => none,
    destDirExists := true }

/-! ## Helper lemmas -/

/-- Validation of the embedded SHA-256 against the FIPS 180-4 test vector
for the empty message. -/
theorem sha256hex_empty :
    sha256hex [] = "e3b0c44298fc1c149afbf4c8996fb92427ae41e4649b934ca495991b7852b855" := by
  decide

/-- Validation of the embedded SHA-256 against the FIPS 180-4 test vector
for the three-byte message abc. -/
theorem sha256hex_abc :
    sha256hex [0x61, 0x62, 0x63] =
      "ba7816bf8f01cfea414140de5dae2223b00361a396177a9cb410ff61f20015ad" := by
  decide

/-- Building an already built cache returns the state unchanged. -/
theorem build_of_built (dx : Bool) (mt : String → Option DateTime)
    (fs : List (String × Bytes)) (st : FingerprintManager)
    (h : st._cache_built = true) :
    _build_fingerprint_cache dx mt fs st = st := by
  simp [_build_fingerprint_cache, h]

/-- Building always leaves the built flag set. -/
theorem build_sets_built (dx : Bool) (mt : String → Option DateTime)
    (fs : List (String × Bytes)) (st : FingerprintManager) :
    (_build_fingerprint_cache dx mt fs st)._cache_built = true := by
  unfold _build_fingerprint_cache
  split
  · assumption
  · split <;> simp

/-- Dict insertion under one key leaves lookups of other keys unchanged. -/
theorem dictInsert_lookup_ne {α : Type} (m : List (String × α)) (k j : String)
    (v : α) (h : j ≠ k) : (dictInsert m k v).lookup j = m.lookup j := by
  have hb : (j == k) = false := beq_eq_false_iff_ne.mpr h
  induction m with
  | nil => simp [dictInsert, List.lookup, hb]
  | cons kv rest ih =>
      obtain ⟨a, b⟩ := kv
      by_cases hak : a = k
      · subst hak
        simp [dictInsert, List.lookup, hb]
      · have hab : (a == k) = false := beq_eq_false_iff_ne.mpr hak
        cases hja : j == a <;> simp [dictInsert, hab, List.lookup, hja, ih]

/-- Dict insertion makes the inserted key's lookup yield the new value. -/
theorem dictInsert_lookup_self {α : Type} (m : List (String × α)) (k : String)
    (v : α) : (dictInsert m k v).lookup k = some v := by
  induction m with
  | nil => simp [dictInsert, List.lookup]
  | cons kv rest ih =>
      obtain ⟨a, b⟩ := kv
      by_cases hak : a = k
      · subst hak
        simp [dictInsert, List.lookup]
      · have hab : (a == k) = false := beq_eq_false_iff_ne.mpr hak
        have hka : (k == a) = false := beq_eq_false_iff_ne.mpr (fun hc => hak hc.symm)
        simp [dictInsert, hab, List.lookup, hka, ih]

/-- One hex rendering has exactly 8 characters. -/
theorem toHex8_length (w : Nat) : (toHex8 w).length = 8 := by
  simp [toHex8]

/-- Every character a hex rendering produces is a lowercase hex digit. -/
theorem toHex8_all_hex (w : Nat) :
    (toHex8 w).all (fun c => hexDigits.contains c) = true := by
  rw [List.all_eq_true]
  intro c hc
  simp only [toHex8, List.mem_map, List.mem_range] at hc
  obtain ⟨i, _, rfl⟩ := hc
  have hlt : (w >>> (28 - 4 * i)) &&& 15 < 16 := Nat.lt_succ_of_le Nat.and_le_right
  generalize hk : (w >>> (28 - 4 * i)) &&& 15 = n at hlt
  interval_cases n <;> decide

/-- The digest string is exactly 64 characters long. -/
theorem sha256hex_length (msg : Bytes) : (sha256hex msg).length = 64 := by
  simp [sha256hex, List.asString, String.length, toHex8_length]

/-- Every character of the digest string is a lowercase hex digit. -/
theorem sha256hex_all_hex (msg : Bytes) :
    (sha256hex msg).toList.all (fun c => hexDigits.contains c) = true := by
  have hm : ∀ w : Nat, ∀ c ∈ toHex8 w, c ∈ hexDigits := by
    intro w c hc
    have := toHex8_all_hex w
    rw [List.all_eq_true] at this
    simpa using this c hc
  simp [sha256hex, List.asString, String.toList, List.all_append]
  exact ⟨hm _, hm _, hm _, hm _, hm _, hm _, hm _, hm _⟩

/-- The digest string is never empty. -/
theorem sha256hex_ne_empty (msg : Bytes) : sha256hex msg ≠ "" := by
  intro h
  have := sha256hex_length msg
  rw [h] at this
  simp [String.length] at this

/-- A file the scanner's per-file filter keeps is never an excluded one. -/
theorem scan_file_filter_not_excluded (cfg : BackupConfig) (r f q : String)
    (h : scan_file_filter cfg r f = some q) :
    should_exclude_file cfg q = false := by
  have h1 : lowerStr (pathSuffix f) ∈ scanner_extensions cfg ∧
      should_exclude_file cfg (r ++ "/" ++ f) = false ∧ r ++ "/" ++ f = q := by
    simpa [scan_file_filter] using h
  obtain ⟨-, h2, rfl⟩ := h1
  exact h2

/-- Walking more directories preserves the invariant that no accumulated
candidate is excluded. -/
theorem foldl_scan_not_excluded (cfg : BackupConfig)
    (ws : List (String × List String × List String)) :
    ∀ acc, (∀ q ∈ acc, should_exclude_file cfg q = false) →
      ∀ q ∈ ws.foldl (scan_dir_step cfg) acc, should_exclude_file cfg q = false := by
  induction ws with
  | nil => intro acc hacc q hq; exact hacc q hq
  | cons w ws ih =>
      intro acc hacc q hq
      refine ih _ ?_ q hq
      intro r hr
      unfold scan_dir_step at hr
      split at hr
      · exact hacc r hr
      · rcases List.mem_append.mp hr with h | h
        · exact hacc r h
        · obtain ⟨f, _, hf⟩ := List.mem_filterMap.mp h
          exact scan_file_filter_not_excluded cfg w.1 f r hf

/-- No path the scanner returns is excluded by the exclusion policy. -/
theorem scan_all_not_excluded (env : Env) :
    (scan_for_photos env).all (fun q => !should_exclude_file env.config q) = true := by
  rw [List.all_eq_true]
  intro q hq
  have hex : should_exclude_file env.config q = false := by
    unfold scan_for_photos at hq
    split at hq
    · exact foldl_scan_not_excluded _ _ [] (by simp) q hq
    · simp at hq
  simp [hex]

/-- Every invocation of backup_photo bumps exactly one of the four outcome
counters: the resulting statistics record is one of the four bumps of the
old one. -/
theorem backup_photo_stats_cases (env : Env) (st : OrchState) (p : String) :
    (backup_photo env st p).2.stats = bumpBackedUp st.stats
    ∨ (backup_photo env st p).2.stats = bumpSkipped st.stats
    ∨ (backup_photo env st p).2.stats = bumpDuplicates st.stats
    ∨ (backup_photo env st p).2.stats = bumpErrors st.stats := by
  simp only [backup_photo]
  repeat' split
  all_goals simp

/-- One backup_photo call increases the counter sum by exactly one. -/
theorem backup_photo_statsSum (env : Env) (st : OrchState) (p : String) :
    statsSum (backup_photo env st p).2.stats = statsSum st.stats + 1 := by
  rcases backup_photo_stats_cases env st p with h | h | h | h <;>
    simp [h, statsSum, bumpBackedUp, bumpSkipped, bumpDuplicates, bumpErrors] <;> omega

/-- backup_photo never touches the total_photos counter. -/
theorem backup_photo_total_photos (env : Env) (st : OrchState) (p : String) :
    (backup_photo env st p).2.stats.total_photos = st.stats.total_photos := by
  rcases backup_photo_stats_cases env st p with h | h | h | h <;>
    simp [h, bumpBackedUp, bumpSkipped, bumpDuplicates, bumpErrors]

/-- Backing up a list of candidates adds its length to the counter sum. -/
theorem foldl_backup_statsSum (env : Env) (ps : List String) :
    ∀ st, statsSum ((ps.foldl (fun s p => (backup_photo env s p).2) st).stats) =
      statsSum st.stats + ps.length := by
  induction ps with
  | nil => intro st; simp
  | cons p ps ih =>
      intro st
      simp only [List.foldl_cons, List.length_cons]
      rw [ih, backup_photo_statsSum]
      omega

/-- Backing up a list of candidates never touches total_photos. -/
theorem foldl_backup_total_photos (env : Env) (ps : List String) :
    ∀ st, ((ps.foldl (fun s p => (backup_photo env s p).2) st).stats).total_photos =
      st.stats.total_photos := by
  induction ps with
  | nil => intro st; simp
  | cons p ps ih =>
      intro st
      simp only [List.foldl_cons]
      rw [ih, backup_photo_total_photos]

/-- The excluded branch of backup_photo: skip and count. -/
theorem backup_photo_excluded (env : Env) (st : OrchState) (p : String)
    (hx : should_exclude_file env.config p = true) :
    backup_photo env st p = (true, { st with stats := bumpSkipped st.stats }) := by
  simp [backup_photo, hx]

/-- The read-error branch of backup_photo: the device read raises, the
except branch counts one error and the call returns False. -/
theorem backup_photo_read_error (env : Env) (st : OrchState) (p e : String)
    (hx : should_exclude_file env.config p = false)
    (hc : env.get_file_contents p = Except.error e) :
    backup_photo env st p =
      (false, { st with stats := bumpErrors st.stats,
                        events := st.events ++ [Event.readFile p] }) := by
  simp [backup_photo, hx, hc]

/-- The duplicate branch of backup_photo: the content hash is in the
(lazily built) cache, the duplicate counter is bumped, nothing written. -/
theorem backup_photo_duplicate (env : Env) (st : OrchState) (p : String)
    (d : Bytes) (fp : FileFingerprint)
    (hx : should_exclude_file env.config p = false)
    (hc : env.get_file_contents p = Except.ok d)
    (hdup : ((_build_fingerprint_cache env.destDirExists env.localMtime st.fs
        st.fm)._fingerprint_cache).lookup (calculate_content_hash d) = some fp) :
    backup_photo env st p =
      (true, { st with
        fm := _build_fingerprint_cache env.destDirExists env.localMtime st.fs st.fm,
        stats := bumpDuplicates st.stats,
        events := st.events ++ [Event.readFile p] }) := by
  simp [backup_photo, hx, hc, get_duplicate_info, is_duplicate, hdup]

/-- The novel-file branch of backup_photo: no duplicate, no existing file
at the destination path, a successful write; the bytes read once at the
start are written, the fingerprint is recorded, backed_up is bumped, and
the trace shows the two device reads (hashing and EXIF extraction), the
mkdir and the write to the final destination name. -/
theorem backup_photo_novel (env : Env) (st : OrchState) (p : String) (d : Bytes)
    (hx : should_exclude_file env.config p = false)
    (hc : env.get_file_contents p = Except.ok d)
    (hdup : ((_build_fingerprint_cache env.destDirExists env.localMtime st.fs
        st.fm)._fingerprint_cache).lookup (calculate_content_hash d) = none)
    (hex : st.fs.lookup (dest_path env st p) = none)
    (hw : env.writeOk (dest_path env st p) = true) :
    backup_photo env st p =
      (true, { st with
        fs := dictInsert st.fs (dest_path env st p) d,
        fm := add_file_to_cache env.localMtime
          (_build_fingerprint_cache env.destDirExists env.localMtime st.fs st.fm)
          (dest_path env st p) d,
        stats := bumpBackedUp st.stats,
        events := st.events ++ [Event.readFile p, Event.readFile p,
          Event.mkdir (dest_dir env st p), Event.writeFile (dest_path env st p)] }) := by
  have hdp : dest_path env st p =
      (st.backup_dir ++ "/" ++ strftime_Y_Ymd (get_file_date env p)) ++ "/" ++ pathName p := rfl
  simp only [backup_photo, hx, hc, get_duplicate_info, is_duplicate, hdup]
  rw [hdp] at hex hw
  simp [hex, hw, dest_dir, dest_path]

/-- A trailing star pattern matches any string. -/
theorem globMatch_star_any (cs : List Char) : globMatch ['*'] cs = true := by
  induction cs with
  | nil => simp [globMatch]
  | cons c cs ih => simp [globMatch, ih]

/-- A leading star absorbs any prefix of the matched string. -/
theorem globMatch_star_absorb (ps xs : List Char) :
    ∀ cs, globMatch ('*' :: ps) cs = true → globMatch ('*' :: ps) (xs ++ cs) = true := by
  induction xs with
  | nil => intro cs h; simpa using h
  | cons x xs ih =>
      intro cs h
      have h2 := ih cs h
      simp [globMatch, h2]

/-- The default thumbnail exclusion glob matches every path with a
Thumbnails directory component, wherever it sits in the full path. -/
theorem fnmatch_thumbnails (a b : String) :
    fnmatch_model (a ++ "/Thumbnails/" ++ b) "*/Thumbnails/*" = true := by
  unfold fnmatch_model
  have hp : "*/Thumbnails/*".toList = '*' :: "/Thumbnails/*".toList := rfl
  have hs : (a ++ "/Thumbnails/" ++ b).toList =
      a.toList ++ ("/Thumbnails/".toList ++ b.toList) := by
    simp [String.toList, String.data_append]
  rw [hp, hs]
  apply globMatch_star_absorb
  simp [globMatch]
  exact Or.inl (globMatch_star_any _)

/-! ## Claim theorems -/

/-- C2: the fingerprint index's build operation is idempotent: a built
index is returned unchanged by every further build (so the destination
root is walked at most once until a reset), building always ends with the
built flag set, clear_cache clears the entries and reverts the flag, a
build after clear_cache rebuilds exactly as a fresh manager would, and
both a duplicate check and a stats request leave the index built. -/
theorem claim_C2_build_idempotent_reset (dx : Bool) (mt : String → Option DateTime)
    (fs : List (String × Bytes)) (st : FingerprintManager) (d : Bytes) :
    (_build_fingerprint_cache dx mt fs st)._cache_built = true
    ∧ _build_fingerprint_cache dx mt fs (_build_fingerprint_cache dx mt fs st) =
        _build_fingerprint_cache dx mt fs st
    ∧ _build_fingerprint_cache dx mt fs { st with _cache_built := true } =
        { st with _cache_built := true }
    ∧ (clear_cache st)._fingerprint_cache = []
    ∧ (clear_cache st)._cache_built = false
    ∧ _build_fingerprint_cache dx mt fs (clear_cache st) =
        _build_fingerprint_cache dx mt fs
          ⟨st.backup_directory, [], false⟩
    ∧ ((is_duplicate dx mt fs st d).2)._cache_built = true
    ∧ ((get_stats dx mt fs st).2)._cache_built = true := by
  refine ⟨build_sets_built dx mt fs st,
          build_of_built dx mt fs _ (build_sets_built dx mt fs st), ?_, rfl, rfl, ?_, ?_, ?_⟩
  · exact build_of_built dx mt fs _ rfl
  · simp [clear_cache, _build_fingerprint_cache]
  · simp only [is_duplicate]
    cases h : ((_build_fingerprint_cache dx mt fs st)._fingerprint_cache).lookup
        (calculate_content_hash d) <;>
      simp [h, build_sets_built]
  · exact build_sets_built dx mt fs st

/-- C10: hash computation is total: for every byte sequence
calculate_content_hash returns the SHA-256 digest as 64 lowercase hex
characters and never the empty string (its internal failure branch is
unreachable), and add_file_to_cache never stores an entry under the empty
key, so a lookup of the empty key is unchanged by recording a file. -/
theorem claim_C10_hash_total_no_empty_key (d : Bytes)
    (mt : String → Option DateTime) (st : FingerprintManager) (p : String) :
    calculate_content_hash d = sha256hex d
    ∧ calculate_content_hash d ≠ ""
    ∧ (calculate_content_hash d).length = 64
    ∧ (calculate_content_hash d).toList.all (fun c => hexDigits.contains c) = true
    ∧ (add_file_to_cache mt st p d)._fingerprint_cache.lookup "" =
        st._fingerprint_cache.lookup "" := by
  refine ⟨rfl, sha256hex_ne_empty d, sha256hex_length d, sha256hex_all_hex d, ?_⟩
  unfold add_file_to_cache
  simp only [calculate_content_hash, ne_eq, sha256hex_ne_empty d, not_false_eq_true, if_true]
  exact dictInsert_lookup_ne _ _ _ _ (fun h => sha256hex_ne_empty d h.symm)

/-- C3: the date resolver follows the ordered fallback chain and, being a
total function, never raises.  With the device and metadata collaborators
injected, get_file_date coincides with the spec's resolver on every
combination: when the stat call succeeds it resolves exactly the
metadata-then-mtime-then-ctime-then-now chain; when the stat call raises
the filesystem step is absent; when the device read raises the metadata
step is absent; and in particular metadata absent with modification time 0
uses the change time, and both absent or 0 uses the current time. -/
theorem claim_C3_date_fallback_chain (env : Env) (p : String) (d : Bytes)
    (mt ct : Option Int) (e1 e2 : String) (xf : Bytes → Option DateTime) (c : Int) :
    get_file_date
        { env with get_file_contents := fun _ => .ok d, exif_date := xf,
                   stat := fun _ => .ok ⟨mt, ct⟩ } p =
      resolve_spec (xf d) mt ct env.fromts env.now
    ∧ get_file_date
        { env with get_file_contents := fun _ => .ok d, exif_date := xf,
                   stat := fun _ => .error e1 } p =
      resolve_spec (xf d) none none env.fromts env.now
    ∧ get_file_date
        { env with get_file_contents := fun _ => .error e2,
                   stat := fun _ => .ok ⟨mt, ct⟩ } p =
      resolve_spec none mt ct env.fromts env.now
    ∧ get_file_date
        { env with get_file_contents := fun _ => .ok d, exif_date := fun _ => none,
                   stat := fun _ => .ok ⟨some 0, some c⟩ } p =
      (if 0 < c then env.fromts c else env.now)
    ∧ get_file_date
        { env with get_file_contents := fun _ => .ok d, exif_date := fun _ => none,
                   stat := fun _ => .ok ⟨some 0, some 0⟩ } p = env.now
    ∧ get_file_date
        { env with get_file_contents := fun _ => .ok d, exif_date := fun _ => none,
                   stat := fun _ => .ok ⟨none, none⟩ } p = env.now := by
  refine ⟨?_, ?_, ?_, ?_, ?_, ?_⟩
  · simp only [get_file_date, _extract_exif_date, _get_filesystem_date, resolve_spec]
    cases hx : xf d <;> cases mt <;> cases ct
    all_goals simp [hx]
    all_goals split_ifs <;> simp
  · simp only [get_file_date, _extract_exif_date, _get_filesystem_date, resolve_spec]
  · simp only [get_file_date, _extract_exif_date, _get_filesystem_date, resolve_spec]
    all_goals cases mt <;> cases ct
    all_goals simp
    all_goals split_ifs <;> simp
  · simp only [get_file_date, _extract_exif_date, _get_filesystem_date]
    all_goals by_cases h : 0 < c <;> simp [h]
  · simp [get_file_date, _extract_exif_date, _get_filesystem_date]
  · simp [get_file_date, _extract_exif_date, _get_filesystem_date]

/-- C4: the computed destination path equals backupRoot slash YYYY slash
YYYY-MM-DD slash basename, the date segments derived from the capture
date alone (organize_file_path takes no clock), agreeing with the spec's
zero-padded layout for every four-digit year, month and day — shown
generally against spec_dest_path and concretely for the spec's
2023-12-25T15:30:45 example, a leap-year date, a year boundary and
February 29. -/
theorem claim_C4_destination_path_layout (root p : String) (y m d hh mi s : Nat)
    (hy : 1000 ≤ y) :
    organize_file_path root p ⟨y, m, d, hh, mi, s⟩ =
      spec_dest_path root y m d (pathName p)
    ∧ organize_file_path "/backup" "/DCIM/100APPLE/IMG_001.jpg" ⟨2023, 12, 25, 15, 30, 45⟩ =
        "/backup/2023/2023-12-25/IMG_001.jpg"
    ∧ organize_file_path "/backup" "/DCIM/100APPLE/IMG_002.jpg" ⟨2024, 6, 15, 0, 0, 0⟩ =
        "/backup/2024/2024-06-15/IMG_002.jpg"
    ∧ organize_file_path "/backup" "/DCIM/100APPLE/IMG_003.jpg" ⟨2023, 1, 1, 0, 0, 0⟩ =
        "/backup/2023/2023-01-01/IMG_003.jpg"
    ∧ organize_file_path "/backup" "/DCIM/100APPLE/IMG_004.jpg" ⟨2024, 2, 29, 23, 59, 59⟩ =
        "/backup/2024/2024-02-29/IMG_004.jpg" := by
  refine ⟨?_, by decide, by decide, by decide, by decide⟩
  have h10 : ¬ y < 10 := by omega
  have h100 : ¬ y < 100 := by omega
  have h1000 : ¬ y < 1000 := by omega
  simp only [organize_file_path, spec_dest_path, strftime_Y_Ymd, yearStr, pad4,
    h10, h100, h1000, if_false, String.append_assoc]

/-- Witness for C4 at the spec's example year 2023. -/
theorem claim_C4_destination_path_layout_witness :
    1000 ≤ 2023
    ∧ (organize_file_path "/backup" "/DCIM/100APPLE/IMG_001.jpg" ⟨2023, 12, 25, 15, 30, 45⟩ =
        spec_dest_path "/backup" 2023 12 25 (pathName "/DCIM/100APPLE/IMG_001.jpg")
      ∧ organize_file_path "/backup" "/DCIM/100APPLE/IMG_001.jpg" ⟨2023, 12, 25, 15, 30, 45⟩ =
          "/backup/2023/2023-12-25/IMG_001.jpg"
      ∧ organize_file_path "/backup" "/DCIM/100APPLE/IMG_002.jpg" ⟨2024, 6, 15, 0, 0, 0⟩ =
          "/backup/2024/2024-06-15/IMG_002.jpg"
      ∧ organize_file_path "/backup" "/DCIM/100APPLE/IMG_003.jpg" ⟨2023, 1, 1, 0, 0, 0⟩ =
          "/backup/2023/2023-01-01/IMG_003.jpg"
      ∧ organize_file_path "/backup" "/DCIM/100APPLE/IMG_004.jpg" ⟨2024, 2, 29, 23, 59, 59⟩ =
          "/backup/2024/2024-02-29/IMG_004.jpg") :=
  ⟨by decide, claim_C4_destination_path_layout "/backup" "/DCIM/100APPLE/IMG_001.jpg"
      2023 12 25 15 30 45 (by decide)⟩

/-- A full run sets total_photos to the number of scanned candidates. -/
theorem backup_all_total_eq_scan_length (env : Env) (root : String)
    (hconn : env.connectOk = true) :
    (backup_all_photos env (initOrchState root)).2.stats.total_photos =
      (scan_for_photos env).length := by
  unfold backup_all_photos
  dsimp only
  simp only [hconn, Bool.not_true, Bool.false_eq_true, if_false]
  by_cases hemp : (scan_for_photos env).isEmpty
  · simp [List.isEmpty_iff.mp hemp, initOrchState]
  · simp only [hemp, Bool.false_eq_true, if_false]
    rw [foldl_backup_total_photos]

/-- After a full run the four outcome counters sum to total_photos. -/
theorem backup_all_sum_eq_total (env : Env) (root : String) :
    statsSum (backup_all_photos env (initOrchState root)).2.stats =
      (backup_all_photos env (initOrchState root)).2.stats.total_photos := by
  unfold backup_all_photos
  dsimp only
  by_cases hc : env.connectOk
  · simp only [hc, Bool.not_true, Bool.false_eq_true, if_false]
    by_cases hemp : (scan_for_photos env).isEmpty
    · simp [hemp, initOrchState, statsSum]
    · simp only [hemp, Bool.false_eq_true, if_false]
      rw [foldl_backup_statsSum, foldl_backup_total_photos]
      simp [initOrchState, statsSum]
  · simp [hc, initOrchState, statsSum]

/-- C8: shouldExclude returns true exactly when the path matches an entry
of the exclusion list or at least one shell-style glob pattern against the
full path string (a glob such as the thumbnail pattern matches directory
components anywhere in the path, not just the basename); no path the
exclusion policy excludes is ever returned by the scanner, and the run's
total candidate count is exactly the scanner's output length, so excluded
paths are never counted. -/
theorem claim_C8_exclusion_policy (cfg : BackupConfig) (env : Env)
    (p root a b : String) (hconn : env.connectOk = true) :
    should_exclude_file cfg p =
      (cfg.exclude_files.contains p ||
        cfg.exclude_patterns.any (fun pattern => fnmatch_model p pattern))
    ∧ fnmatch_model (a ++ "/Thumbnails/" ++ b) "*/Thumbnails/*" = true
    ∧ should_exclude_file
        { cfg with exclude_patterns := "*/Thumbnails/*" :: cfg.exclude_patterns }
        (a ++ "/Thumbnails/" ++ b) = true
    ∧ (scan_for_photos env).all (fun q => !should_exclude_file env.config q) = true
    ∧ (backup_all_photos env (initOrchState root)).2.stats.total_photos =
        (scan_for_photos env).length := by
  refine ⟨rfl, fnmatch_thumbnails a b, ?_, scan_all_not_excluded env,
    backup_all_total_eq_scan_length env root hconn⟩
  simp [should_exclude_file, fnmatch_thumbnails a b]

/-- Witness for C8 at a concrete configuration and device environment. -/
theorem claim_C8_exclusion_policy_witness :
    envW.connectOk = true
    ∧ (should_exclude_file cfgW "/DCIM/100APPLE/a.jpg" =
        (cfgW.exclude_files.contains "/DCIM/100APPLE/a.jpg" ||
          cfgW.exclude_patterns.any
            (fun pattern => fnmatch_model "/DCIM/100APPLE/a.jpg" pattern))
      ∧ fnmatch_model ("/DCIM" ++ "/Thumbnails/" ++ "x.jpg") "*/Thumbnails/*" = true
      ∧ should_exclude_file
          { cfgW with exclude_patterns := "*/Thumbnails/*" :: cfgW.exclude_patterns }
          ("/DCIM" ++ "/Thumbnails/" ++ "x.jpg") = true
      ∧ (scan_for_photos envW).all
          (fun q => !should_exclude_file envW.config q) = true
      ∧ (backup_all_photos envW (initOrchState "/backup")).2.stats.total_photos =
          (scan_for_photos envW).length) :=
  ⟨rfl, claim_C8_exclusion_policy cfgW envW "/DCIM/100APPLE/a.jpg" "/backup"
    "/DCIM" "x.jpg" rfl⟩

/-- C9: counter conservation: every invocation of backup_photo increments
exactly one of backed_up, skipped, duplicates, errors (the resulting
statistics are one of the four bumps, each leaving the other three and
total_photos unchanged); consequently a full run ends with the sum of the
four counters equal to total_photos. -/
theorem claim_C9_counter_conservation (env : Env) (st : OrchState) (p root : String) :
    ((backup_photo env st p).2.stats = bumpBackedUp st.stats
      ∨ (backup_photo env st p).2.stats = bumpSkipped st.stats
      ∨ (backup_photo env st p).2.stats = bumpDuplicates st.stats
      ∨ (backup_photo env st p).2.stats = bumpErrors st.stats)
    ∧ statsSum (backup_all_photos env (initOrchState root)).2.stats =
        (backup_all_photos env (initOrchState root)).2.stats.total_photos := by
  exact ⟨backup_photo_stats_cases env st p, backup_all_sum_eq_total env root⟩

/-- C1: content-addressed dedup.  For any two candidate paths whose device
reads yield the same bytes, starting from a fresh empty destination:
processing the first backs it up (backed_up becomes 1 and exactly one copy
with those bytes exists in the destination tree); processing the second
bumps only the duplicate counter, writes nothing (the destination tree is
unchanged and the only trace event added is the device read), because the
duplicate check computes the same SHA-256 digest for byte-identical inputs
and finds the recorded copy. -/
theorem claim_C1_content_addressed_dedup (env : Env) (p1 p2 root : String)
    (d : Bytes)
    (hx1 : should_exclude_file env.config p1 = false)
    (hx2 : should_exclude_file env.config p2 = false)
    (hc1 : env.get_file_contents p1 = Except.ok d)
    (hc2 : env.get_file_contents p2 = Except.ok d)
    (hw : ∀ t, env.writeOk t = true) :
    (backup_photo env (initOrchState root) p1).1 = true
    ∧ (backup_photo env (initOrchState root) p1).2.stats = ⟨0, 1, 0, 0, 0⟩
    ∧ (backup_photo env (initOrchState root) p1).2.fs.map Prod.snd = [d]
    ∧ (backup_photo env (backup_photo env (initOrchState root) p1).2 p2).1 = true
    ∧ (backup_photo env (backup_photo env (initOrchState root) p1).2 p2).2.stats =
        ⟨0, 1, 0, 1, 0⟩
    ∧ (backup_photo env (backup_photo env (initOrchState root) p1).2 p2).2.fs =
        (backup_photo env (initOrchState root) p1).2.fs
    ∧ (backup_photo env (backup_photo env (initOrchState root) p1).2 p2).2.events =
        (backup_photo env (initOrchState root) p1).2.events ++ [Event.readFile p2] := by
  have hb : _build_fingerprint_cache env.destDirExists env.localMtime
      ([] : List (String × Bytes))
      ⟨root, [], false⟩ = ⟨root, [], true⟩ := by
    cases hdx : env.destDirExists <;> simp [_build_fingerprint_cache, hdx]
  have hinit_fs : (initOrchState root).fs = [] := rfl
  have hinit_fm : (initOrchState root).fm = ⟨root, [], false⟩ := rfl
  have hdup1 : ((_build_fingerprint_cache env.destDirExists env.localMtime
      (initOrchState root).fs (initOrchState root).fm)._fingerprint_cache).lookup
      (calculate_content_hash d) = none := by
    rw [hinit_fs, hinit_fm, hb]
    rfl
  have hex1 : (initOrchState root).fs.lookup
      (dest_path env (initOrchState root) p1) = none := rfl
  have h1 := backup_photo_novel env (initOrchState root) p1 d hx1 hc1 hdup1 hex1 (hw _)
  rw [hinit_fs, hinit_fm, hb] at h1
  set dp1 := dest_path env (initOrchState root) p1 with hdp1
  have hfm1 : add_file_to_cache env.localMtime
      (⟨root, [], true⟩ : FingerprintManager) dp1 d =
      ⟨root, [(calculate_content_hash d,
        ⟨dp1, calculate_content_hash d, d.length, env.localMtime dp1⟩)], true⟩ := by
    simp [add_file_to_cache, dictInsert, calculate_content_hash, sha256hex_ne_empty]
  rw [hfm1] at h1
  have hS1 : (backup_photo env (initOrchState root) p1).2 =
      { (initOrchState root) with
        fs := dictInsert [] dp1 d,
        fm := ⟨root, [(calculate_content_hash d,
          ⟨dp1, calculate_content_hash d, d.length, env.localMtime dp1⟩)], true⟩,
        stats := bumpBackedUp (initOrchState root).stats,
        events := (initOrchState root).events ++ [Event.readFile p1, Event.readFile p1,
          Event.mkdir (dest_dir env (initOrchState root) p1), Event.writeFile dp1] } := by
    rw [h1]
  have hdup2 : ((_build_fingerprint_cache env.destDirExists env.localMtime
      (backup_photo env (initOrchState root) p1).2.fs
      (backup_photo env (initOrchState root) p1).2.fm)._fingerprint_cache).lookup
      (calculate_content_hash d) =
      some ⟨dp1, calculate_content_hash d, d.length, env.localMtime dp1⟩ := by
    rw [hS1]
    rw [build_of_built _ _ _ _ rfl]
    simp [List.lookup]
  have h2 := backup_photo_duplicate env (backup_photo env (initOrchState root) p1).2
      p2 d _ hx2 hc2 hdup2
  rw [build_of_built _ _ _ _ (by rw [hS1])] at h2
  refine ⟨by rw [h1], ?_, ?_, by rw [h2], ?_, by rw [h2], by rw [h2]⟩
  · rw [hS1]
    simp [initOrchState, bumpBackedUp]
  · rw [hS1]
    simp [dictInsert]
  · rw [h2, hS1]
    simp [initOrchState, bumpBackedUp, bumpDuplicates]

/-- Witness for C1: two differently named camera-roll files with the same
three bytes against a fresh destination. -/
theorem claim_C1_content_addressed_dedup_witness :
    should_exclude_file envW1.config "/DCIM/100APPLE/IMG_001.jpg" = false
    ∧ should_exclude_file envW1.config "/DCIM/100APPLE/IMG_002.jpg" = false
    ∧ envW1.get_file_contents "/DCIM/100APPLE/IMG_001.jpg" = Except.ok [1, 2, 3]
    ∧ envW1.get_file_contents "/DCIM/100APPLE/IMG_002.jpg" = Except.ok [1, 2, 3]
    ∧ (∀ t, envW1.writeOk t = true)
    ∧ ((backup_photo envW1 (initOrchState "/backup") "/DCIM/100APPLE/IMG_001.jpg").1 = true
      ∧ (backup_photo envW1 (initOrchState "/backup") "/DCIM/100APPLE/IMG_001.jpg").2.stats =
          ⟨0, 1, 0, 0, 0⟩
      ∧ (backup_photo envW1 (initOrchState "/backup")
          "/DCIM/100APPLE/IMG_001.jpg").2.fs.map Prod.snd = [[1, 2, 3]]
      ∧ (backup_photo envW1
          (backup_photo envW1 (initOrchState "/backup") "/DCIM/100APPLE/IMG_001.jpg").2
          "/DCIM/100APPLE/IMG_002.jpg").1 = true
      ∧ (backup_photo envW1
          (backup_photo envW1 (initOrchState "/backup") "/DCIM/100APPLE/IMG_001.jpg").2
          "/DCIM/100APPLE/IMG_002.jpg").2.stats = ⟨0, 1, 0, 1, 0⟩
      ∧ (backup_photo envW1
          (backup_photo envW1 (initOrchState "/backup") "/DCIM/100APPLE/IMG_001.jpg").2
          "/DCIM/100APPLE/IMG_002.jpg").2.fs =
          (backup_photo envW1 (initOrchState "/backup") "/DCIM/100APPLE/IMG_001.jpg").2.fs
      ∧ (backup_photo envW1
          (backup_photo envW1 (initOrchState "/backup") "/DCIM/100APPLE/IMG_001.jpg").2
          "/DCIM/100APPLE/IMG_002.jpg").2.events =
          (backup_photo envW1 (initOrchState "/backup")
            "/DCIM/100APPLE/IMG_001.jpg").2.events ++
            [Event.readFile "/DCIM/100APPLE/IMG_002.jpg"]) :=
  ⟨by decide, by decide, rfl, rfl, fun _ => rfl,
    claim_C1_content_addressed_dedup envW1 "/DCIM/100APPLE/IMG_001.jpg"
      "/DCIM/100APPLE/IMG_002.jpg" "/backup" [1, 2, 3]
      (by decide) (by decide) rfl rfl (fun _ => rfl)⟩

set_option maxRecDepth 100000 in
/-- C5: per-candidate failure isolation.  A transport error while fetching
one candidate's bytes is caught: the call returns False, bumps only the
errors counter, and mutates nothing else; and in the concrete five
candidate run whose third candidate raises a transport error, the run
still reports success with errors 1 and backed_up 4. -/
theorem claim_C5_partial_failure_isolation (env : Env) (st : OrchState) (p e : String)
    (hx : should_exclude_file env.config p = false)
    (hc : env.get_file_contents p = Except.error e) :
    backup_photo env st p =
      (false, { st with stats := bumpErrors st.stats,
                        events := st.events ++ [Event.readFile p] })
    ∧ (backup_all_photos envW (initOrchState "/backup")).1 = true
    ∧ (backup_all_photos envW (initOrchState "/backup")).2.stats = ⟨5, 4, 0, 0, 1⟩ := by
  refine ⟨backup_photo_read_error env st p e hx hc, ?_, ?_⟩ <;> decide

/-- Witness for C5: the five-candidate environment, whose third candidate
raises the transport error. -/
theorem claim_C5_partial_failure_isolation_witness :
    should_exclude_file envW.config "/DCIM/100APPLE/c.jpg" = false
    ∧ envW.get_file_contents "/DCIM/100APPLE/c.jpg" = Except.error "transport error"
    ∧ (backup_photo envW (initOrchState "/backup") "/DCIM/100APPLE/c.jpg" =
        (false, { initOrchState "/backup" with
          stats := bumpErrors (initOrchState "/backup").stats,
          events := (initOrchState "/backup").events ++
            [Event.readFile "/DCIM/100APPLE/c.jpg"] })
      ∧ (backup_all_photos envW (initOrchState "/backup")).1 = true
      ∧ (backup_all_photos envW (initOrchState "/backup")).2.stats = ⟨5, 4, 0, 0, 1⟩) :=
  ⟨by decide, rfl,
    claim_C5_partial_failure_isolation envW (initOrchState "/backup")
      "/DCIM/100APPLE/c.jpg" "transport error" (by decide) rfl⟩

/-- Counterexample to C6 as stated: on a novel candidate the trace holds
two device reads of the same source path — one by the orchestrator for
hashing and writing, one inside date resolution for EXIF extraction — not
exactly one. -/
theorem claim_C6_counterexample :
    (backup_photo envW1 (initOrchState "/backup")
      "/DCIM/100APPLE/IMG_001.jpg").2.events.count
      (Event.readFile "/DCIM/100APPLE/IMG_001.jpg") = 2
    ∧ (backup_photo envW1 (initOrchState "/backup")
        "/DCIM/100APPLE/IMG_001.jpg").2.events.count
        (Event.readFile "/DCIM/100APPLE/IMG_001.jpg") ≠ 1 := by
  decide

/-- C6 as amended: the orchestrator fetches the bytes once and reuses that
buffer for both the duplicate check and the write (the written content is
the fetched bytes), but date resolution independently fetches the same
path once more for EXIF extraction, so a novel candidate incurs exactly
two device reads. -/
theorem claim_C6_fetch_reuse_amended (env : Env) (st : OrchState) (p : String)
    (d : Bytes)
    (hx : should_exclude_file env.config p = false)
    (hc : env.get_file_contents p = Except.ok d)
    (hdup : ((_build_fingerprint_cache env.destDirExists env.localMtime st.fs
        st.fm)._fingerprint_cache).lookup (calculate_content_hash d) = none)
    (hex : st.fs.lookup (dest_path env st p) = none)
    (hw : env.writeOk (dest_path env st p) = true) :
    (backup_photo env st p).2.events =
      st.events ++ [Event.readFile p, Event.readFile p,
        Event.mkdir (dest_dir env st p), Event.writeFile (dest_path env st p)]
    ∧ (backup_photo env st p).2.fs = dictInsert st.fs (dest_path env st p) d
    ∧ (backup_photo env st p).2.fs.lookup (dest_path env st p) = some d := by
  have h := backup_photo_novel env st p d hx hc hdup hex hw
  refine ⟨by rw [h], by rw [h], ?_⟩
  rw [h]
  exact dictInsert_lookup_self st.fs (dest_path env st p) d

/-- Witness for C6 as amended, at the concrete one-candidate environment. -/
theorem claim_C6_fetch_reuse_amended_witness :
    should_exclude_file envW1.config "/DCIM/100APPLE/IMG_001.jpg" = false
    ∧ envW1.get_file_contents "/DCIM/100APPLE/IMG_001.jpg" = Except.ok [1, 2, 3]
    ∧ ((_build_fingerprint_cache envW1.destDirExists envW1.localMtime
        (initOrchState "/backup").fs
        (initOrchState "/backup").fm)._fingerprint_cache).lookup
        (calculate_content_hash [1, 2, 3]) = none
    ∧ (initOrchState "/backup").fs.lookup
        (dest_path envW1 (initOrchState "/backup") "/DCIM/100APPLE/IMG_001.jpg") = none
    ∧ envW1.writeOk
        (dest_path envW1 (initOrchState "/backup") "/DCIM/100APPLE/IMG_001.jpg") = true
    ∧ ((backup_photo envW1 (initOrchState "/backup")
          "/DCIM/100APPLE/IMG_001.jpg").2.events =
        (initOrchState "/backup").events ++
          [Event.readFile "/DCIM/100APPLE/IMG_001.jpg",
           Event.readFile "/DCIM/100APPLE/IMG_001.jpg",
           Event.mkdir (dest_dir envW1 (initOrchState "/backup") "/DCIM/100APPLE/IMG_001.jpg"),
           Event.writeFile
             (dest_path envW1 (initOrchState "/backup") "/DCIM/100APPLE/IMG_001.jpg")]
      ∧ (backup_photo envW1 (initOrchState "/backup")
          "/DCIM/100APPLE/IMG_001.jpg").2.fs =
          dictInsert (initOrchState "/backup").fs
            (dest_path envW1 (initOrchState "/backup") "/DCIM/100APPLE/IMG_001.jpg") [1, 2, 3]
      ∧ (backup_photo envW1 (initOrchState "/backup")
          "/DCIM/100APPLE/IMG_001.jpg").2.fs.lookup
          (dest_path envW1 (initOrchState "/backup") "/DCIM/100APPLE/IMG_001.jpg") =
          some [1, 2, 3]) :=
  ⟨by decide, rfl, rfl, rfl, rfl,
    claim_C6_fetch_reuse_amended envW1 (initOrchState "/backup")
      "/DCIM/100APPLE/IMG_001.jpg" [1, 2, 3] (by decide) rfl rfl rfl rfl⟩

/-- Every event backup_photo appends to the trace is something other than
a rename: the code never renames. -/
theorem backup_photo_no_rename (env : Env) (st : OrchState) (p : String) :
    ((backup_photo env st p).2.events.drop st.events.length).all
      (fun e => !isRenameEvent e) = true := by
  simp only [backup_photo]
  repeat' split
  all_goals simp [isRenameEvent, List.append_assoc, List.drop_left, List.drop_length]

/-- Counterexample to C7 as stated: on a concrete novel candidate the
trace is exactly two reads, the mkdir and one write directly to the final
destination name; no temporary name and no rename occur, and the written
bytes are immediately visible under the final name. -/
theorem claim_C7_counterexample :
    (backup_photo envW1 (initOrchState "/backup")
      "/DCIM/100APPLE/IMG_001.jpg").2.events =
      [Event.readFile "/DCIM/100APPLE/IMG_001.jpg",
       Event.readFile "/DCIM/100APPLE/IMG_001.jpg",
       Event.mkdir "/backup/2023/2023-12-25",
       Event.writeFile "/backup/2023/2023-12-25/IMG_001.jpg"]
    ∧ (backup_photo envW1 (initOrchState "/backup")
        "/DCIM/100APPLE/IMG_001.jpg").2.events.all
        (fun e => !isRenameEvent e) = true
    ∧ (backup_photo envW1 (initOrchState "/backup")
        "/DCIM/100APPLE/IMG_001.jpg").2.fs.lookup
        "/backup/2023/2023-12-25/IMG_001.jpg" = some [1, 2, 3] := by
  decide

/-- C7 as amended: writes are not atomic.  backup_photo never emits a
rename, and on the novel-file branch it opens and writes the bytes
directly at the final destination name (the only write event targets
dest_path itself), so nothing shields the final name from a partial
write. -/
theorem claim_C7_direct_write_amended (env : Env) (st : OrchState) (p : String)
    (d : Bytes)
    (hx : should_exclude_file env.config p = false)
    (hc : env.get_file_contents p = Except.ok d)
    (hdup : ((_build_fingerprint_cache env.destDirExists env.localMtime st.fs
        st.fm)._fingerprint_cache).lookup (calculate_content_hash d) = none)
    (hex : st.fs.lookup (dest_path env st p) = none)
    (hw : env.writeOk (dest_path env st p) = true) :
    ((backup_photo env st p).2.events.drop st.events.length).all
      (fun e => !isRenameEvent e) = true
    ∧ (backup_photo env st p).2.events.drop st.events.length =
        [Event.readFile p, Event.readFile p, Event.mkdir (dest_dir env st p),
         Event.writeFile (dest_path env st p)]
    ∧ (backup_photo env st p).2.fs.lookup (dest_path env st p) = some d := by
  have h := backup_photo_novel env st p d hx hc hdup hex hw
  refine ⟨backup_photo_no_rename env st p, ?_, ?_⟩
  · rw [h]
    simp [List.drop_left]
  · rw [h]
    exact dictInsert_lookup_self st.fs (dest_path env st p) d

/-- Witness for C7 as amended, at the concrete one-candidate environment. -/
theorem claim_C7_direct_write_amended_witness :
    should_exclude_file envW1.config "/DCIM/100APPLE/IMG_001.jpg" = false
    ∧ envW1.get_file_contents "/DCIM/100APPLE/IMG_001.jpg" = Except.ok [1, 2, 3]
    ∧ ((_build_fingerprint_cache envW1.destDirExists envW1.localMtime
        (initOrchState "/backup").fs
        (initOrchState "/backup").fm)._fingerprint_cache).lookup
        (calculate_content_hash [1, 2, 3]) = none
    ∧ (initOrchState "/backup").fs.lookup
        (dest_path envW1 (initOrchState "/backup") "/DCIM/100APPLE/IMG_001.jpg") = none
    ∧ envW1.writeOk
        (dest_path envW1 (initOrchState "/backup") "/DCIM/100APPLE/IMG_001.jpg") = true
    ∧ (((backup_photo envW1 (initOrchState "/backup")
          "/DCIM/100APPLE/IMG_001.jpg").2.events.drop
          (initOrchState "/backup").events.length).all
          (fun e => !isRenameEvent e) = true
      ∧ (backup_photo envW1 (initOrchState "/backup")
          "/DCIM/100APPLE/IMG_001.jpg").2.events.drop
          (initOrchState "/backup").events.length =
          [Event.readFile "/DCIM/100APPLE/IMG_001.jpg",
           Event.readFile "/DCIM/100APPLE/IMG_001.jpg",
           Event.mkdir (dest_dir envW1 (initOrchState "/backup") "/DCIM/100APPLE/IMG_001.jpg"),
           Event.writeFile
             (dest_path envW1 (initOrchState "/backup") "/DCIM/100APPLE/IMG_001.jpg")]
      ∧ (backup_photo envW1 (initOrchState "/backup")
          "/DCIM/100APPLE/IMG_001.jpg").2.fs.lookup
          (dest_path envW1 (initOrchState "/backup") "/DCIM/100APPLE/IMG_001.jpg") =
          some [1, 2, 3]) :=
  ⟨by decide, rfl, rfl, rfl, rfl,
    claim_C7_direct_write_amended envW1 (initOrchState "/backup")
      "/DCIM/100APPLE/IMG_001.jpg" [1, 2, 3] (by decide) rfl rfl rfl rfl⟩

end IPhoneBackup
